import Mathlib

/-
  Verification of the OAuth2-with-PKCE session/token lifecycle manager of the
  canva-mcp-server repository (src/server/server.ts), as a shallow embedding.

  Network I/O (the token endpoint and the downstream API, reached through
  `fetch`) is modelled by passing the response of each call as an explicit
  argument; the SHA-256-with-base64url hash used for the PKCE challenge
  (node:crypto, external to the repository) is modelled as an opaque function
  argument.  Times are absolute instants in milliseconds (Int), passed
  explicitly where the source calls `Date.now()`.
-/

namespace CanvaMCP

/-- Value type of the `authSessions` map (server.ts line 51):
`{ accessToken: string; refreshToken: string; expiresAt: number }`. -/
structure SessionTokenRecord where
  accessToken : String
  refreshToken : String
  expiresAt : Int
deriving Repr, DecidableEq

/-- Value type of the `pendingAuthStates` map (server.ts line 52):
`{ sessionId: string; createdAt: number; codeVerifier: string }`. -/
structure PendingAuth where
  sessionId : String
  createdAt : Int
  codeVerifier : String
deriving Repr, DecidableEq

/-- A JS `Map.get`: the entry with the given key (maps built by `mapSet`
have unique keys, mirroring a JS Map). -/
def mapGet {α : Type} : List (String × α) → String → Option α
  | [], _ => none
  | p :: ps, k => if p.1 == k then some p.2 else mapGet ps k

/-- A JS `Map.has`. -/
def mapHas {α : Type} (m : List (String × α)) (k : String) : Bool :=
  (mapGet m k).isSome

/-- A JS `Map.set`: overwrite in place when the key is present, else append
(JS Maps keep insertion order). -/
def mapSet {α : Type} : List (String × α) → String → α → List (String × α)
  | [], k, v => [(k, v)]
  | p :: ps, k, v => if p.1 == k then (k, v) :: ps else p :: mapSet ps k v

/-- A JS `Map.delete` (removing every entry with the key; on key-unique maps
this is the JS behaviour). -/
def mapDelete {α : Type} (m : List (String × α)) (k : String) :
    List (String × α) :=
  m.filter (fun p => p.1 != k)

/-- Outcome of one `fetch` to the token endpoint: a parsed success JSON of
type α, or a non-ok HTTP response with its statusText and body. -/
inductive FetchOutcome (α : Type) where
  | success (resp : α)
  | failure (statusText : String) (body : String)
deriving Repr, DecidableEq

/-- Fields of a successful `authorization_code` token response that the code
reads (return type of `exchangeCodeForToken`, server.ts lines 859-863). -/
structure TokenResponse where
  access_token : String
  refresh_token : String
  expires_in : Int
deriving Repr, DecidableEq

/-- A successful `refresh_token` response.  The provider may or may not
include a `refresh_token` member in the JSON; the source's return type for
`refreshAccessToken` (server.ts lines 887-890) omits it and no caller reads
it, so it is carried here as an optional field that the code ignores. -/
structure RefreshResponse where
  access_token : String
  refresh_token? : Option String
  expires_in : Int
deriving Repr, DecidableEq

/-- `exchangeCodeForToken` (server.ts lines 859-885): returns the parsed JSON
on HTTP success, otherwise throws
`Failed to exchange code for token: statusText - body`. -/
def exchangeCodeForToken (outcome : FetchOutcome TokenResponse) :
    Except String TokenResponse :=
  match outcome with
  | .success resp => .ok resp
  | .failure statusText body =>
      .error ("Failed to exchange code for token: " ++ statusText ++ " - " ++ body)

/-- `refreshAccessToken` (server.ts lines 887-910): returns the parsed JSON
on HTTP success, otherwise throws `Failed to refresh token: statusText - body`. -/
def refreshAccessToken (outcome : FetchOutcome RefreshResponse) :
    Except String RefreshResponse :=
  match outcome with
  | .success resp => .ok resp
  | .failure statusText body =>
      .error ("Failed to refresh token: " ++ statusText ++ " - " ++ body)

/-- Result of `getValidAccessToken`: the returned token or the thrown error,
the `authSessions` map afterwards, and how many refresh POSTs were made. -/
structure GetTokenResult where
  result : Except String String
  authSessions : List (String × SessionTokenRecord)
  refreshCalls : Nat
deriving Repr

/-- `getValidAccessToken` (server.ts lines 912-929).  `now` is the
`Date.now()` of the expiry check (line 920) and `nowAfterRefresh` the
`Date.now()` of line 924, sampled after the refresh POST returns.
`refreshOutcome` is the token endpoint's response, consulted only if the
refresh POST happens. -/
def getValidAccessToken (authSessions : List (String × SessionTokenRecord))
    (sessionId : String) (now nowAfterRefresh : Int)
    (refreshOutcome : FetchOutcome RefreshResponse) : GetTokenResult :=
  match mapGet authSessions sessionId with
  | none =>
      ⟨.error "Not authenticated. Please authenticate with Canva first.",
       authSessions, 0⟩
  | some session =>
      if session.expiresAt - 5 * 60 * 1000 ≤ now then
        match refreshAccessToken refreshOutcome with
        | .error e => ⟨.error e, authSessions, 1⟩
        | .ok tokenData =>
            let updated : SessionTokenRecord :=
              { session with
                  accessToken := tokenData.access_token,
                  expiresAt := nowAfterRefresh + tokenData.expires_in * 1000 }
            ⟨.ok updated.accessToken, mapSet authSessions sessionId updated, 1⟩
      else ⟨.ok session.accessToken, authSessions, 0⟩

/-- Upper-case hex digit of a value below 16, as `URLSearchParams` emits. -/
def hexDigit (n : Nat) : Char :=
  if n < 10 then Char.ofNat (48 + n) else Char.ofNat (55 + n)

/-- Percent-encoding of one UTF-8 byte under the
`application/x-www-form-urlencoded` serializer used by
`URLSearchParams.toString()`: ASCII alphanumerics and `*-._` pass through,
space becomes `+`, every other byte becomes `%XX`. -/
def encodeByte (b : Nat) : String :=
  if (48 ≤ b ∧ b ≤ 57) ∨ (65 ≤ b ∧ b ≤ 90) ∨ (97 ≤ b ∧ b ≤ 122) ∨
      b = 42 ∨ b = 45 ∨ b = 46 ∨ b = 95 then
    String.singleton (Char.ofNat b)
  else if b = 32 then "+"
  else "%" ++ String.singleton (hexDigit (b / 16)) ++ String.singleton (hexDigit (b % 16))

/-- `application/x-www-form-urlencoded` encoding of one component, over the
UTF-8 bytes of the string. -/
def formUrlEncode (s : String) : String :=
  String.join
    ((s.data.flatMap (fun c => (String.utf8EncodeChar c).map UInt8.toNat)).map
      encodeByte)

/-- `URLSearchParams({...}).toString()`: `k=v` pairs in insertion order,
components encoded, joined with `&`. -/
def urlParamsToString : List (String × String) → String
  | [] => ""
  | [p] => formUrlEncode p.1 ++ "=" ++ formUrlEncode p.2
  | p :: ps => formUrlEncode p.1 ++ "=" ++ formUrlEncode p.2 ++ "&" ++ urlParamsToString ps

/-- The hard-coded scope list of `generateAuthUrl` (server.ts lines 833-844). -/
def authScopes : List String :=
  ["asset:read", "asset:write", "comment:read", "comment:write",
   "design:content:read", "design:content:write", "design:meta:read",
   "folder:read", "folder:write", "profile:read"]

/-- `generateAuthUrl` (server.ts lines 831-857).  `codeChallengeOf` stands for
`generateCodeChallenge` (SHA-256 + base64url via node:crypto, external code);
`clientId` and `redirectUri` stand for the ambient `CANVA_CLIENT_ID` and
`CANVA_REDIRECT_URI` constants (lines 31-33), which default to `""` and a
localhost URL when the environment variables are unset. -/
def generateAuthUrl (codeChallengeOf : String → String)
    (clientId redirectUri state codeVerifier : String) : String :=
  "https://www.canva.com/api/oauth/authorize?" ++ urlParamsToString
    [("client_id", clientId),
     ("response_type", "code"),
     ("redirect_uri", redirectUri),
     ("state", state),
     ("scope", String.intercalate " " authScopes),
     ("code_challenge", codeChallengeOf codeVerifier),
     ("code_challenge_method", "S256")]

/-- An HTTP response of the downstream design-platform API: status and body. -/
structure HttpResponse where
  status : Nat
  body : String
deriving Repr, DecidableEq

/-- JS `Response.ok`: status in the range 200-299. -/
def responseOk (r : HttpResponse) : Bool :=
  200 ≤ r.status && r.status < 300

/-- Result of `canvaApiRequest`: the Authorization header of the forwarded
request when one was made, the returned JSON body (`none` stands for the
`null` returned on 204), or the thrown error; plus the `authSessions` map
afterwards and how many refresh POSTs and downstream requests were made. -/
structure ApiRequestResult where
  authHeader : Option String
  requestUrl : Option String
  contentTypeHeader : Option String
  result : Except String (Option String)
  authSessions : List (String × SessionTokenRecord)
  refreshCalls : Nat
  apiCalls : Nat
deriving Repr

/-- `canvaApiRequest` (server.ts lines 931-963).  `endpoint`, `method` and
`body?` are the tool-supplied arguments (they shape the forwarded request but
not the control flow); `apiResponse` is the downstream API's response,
consulted only if a valid access token was obtained. -/
def canvaApiRequest (authSessions : List (String × SessionTokenRecord))
    (sessionId : String) (endpoint method : String) (body? : Option String)
    (now nowAfterRefresh : Int) (refreshOutcome : FetchOutcome RefreshResponse)
    (apiResponse : HttpResponse) : ApiRequestResult :=
  let g := getValidAccessToken authSessions sessionId now nowAfterRefresh refreshOutcome
  match g.result with
  | .error e => ⟨none, none, none, .error e, g.authSessions, g.refreshCalls, 0⟩
  | .ok accessToken =>
      let header := "Bearer " ++ accessToken
      let contentType := if body?.isSome && method != "GET" then some "application/json" else none
      let url := "https://api.canva.com/rest/v1" ++ endpoint
      if responseOk apiResponse then
        if apiResponse.status == 204 then
          ⟨some header, some url, contentType, .ok none, g.authSessions, g.refreshCalls, 1⟩
        else
          ⟨some header, some url, contentType, .ok (some apiResponse.body),
           g.authSessions, g.refreshCalls, 1⟩
      else
        ⟨some header, some url, contentType,
         .error ("Canva API error: " ++ toString apiResponse.status ++ " " ++ apiResponse.body),
         g.authSessions, g.refreshCalls, 1⟩

/-- Result of `handleAuthCallback`: the HTTP status written, both stores
afterwards, and how many token-exchange POSTs were made. -/
structure CallbackResult where
  status : Nat
  authSessions : List (String × SessionTokenRecord)
  pendingAuthStates : List (String × PendingAuth)
  exchangeCalls : Nat
deriving Repr, DecidableEq

/-- The clean-up loop of `handleAuthCallback` (server.ts lines 1585-1591):
delete every pending entry older than 10 minutes. -/
def sweepPendingStates (pending : List (String × PendingAuth)) (now : Int) :
    List (String × PendingAuth) :=
  pending.filter (fun p => decide (now - p.2.createdAt ≤ 10 * 60 * 1000))

/-- JS truthiness of `url.searchParams.get(..)`: `null` (absent) and `""` are
falsy. -/
def truthyParam : Option String → Bool
  | none => false
  | some s => s != ""

/-- `handleAuthCallback` (server.ts lines 1555-1629).  `code?`, `state?` and
`error?` are the query parameters (absent or present); `now` is the
`Date.now()` of the clean-up loop (line 1586) and `nowAtStore` the
`Date.now()` of line 1599, sampled after the exchange POST returns;
`exchangeOutcome` is the token endpoint's response, consulted only if the
exchange POST happens. -/
def handleAuthCallback (authSessions : List (String × SessionTokenRecord))
    (pendingAuthStates : List (String × PendingAuth))
    (code? state? error? : Option String) (now nowAtStore : Int)
    (exchangeOutcome : FetchOutcome TokenResponse) : CallbackResult :=
  if truthyParam error? then ⟨400, authSessions, pendingAuthStates, 0⟩
  else if !truthyParam code? || !truthyParam state? then
    ⟨400, authSessions, pendingAuthStates, 0⟩
  else
    let state := state?.getD ""
    match mapGet pendingAuthStates state with
    | none => ⟨400, authSessions, pendingAuthStates, 0⟩
    | some pendingAuth =>
        let swept := sweepPendingStates pendingAuthStates now
        match exchangeCodeForToken exchangeOutcome with
        | .error _ => ⟨500, authSessions, swept, 1⟩
        | .ok tokenData =>
            let record : SessionTokenRecord :=
              ⟨tokenData.access_token, tokenData.refresh_token,
               nowAtStore + tokenData.expires_in * 1000⟩
            ⟨200, mapSet authSessions pendingAuth.sessionId record,
             mapDelete swept state, 1⟩

/-- Result of one protected tool call through the `CallToolRequestSchema`
handler: whether the authorization-required message was returned instead of
dispatching, the text of that message, the tool's outcome when dispatched,
both stores afterwards, and the refresh / downstream-request counts. -/
structure ProtectedCallResult where
  authRequired : Bool
  text : String
  result : Option (Except String (Option String))
  authSessions : List (String × SessionTokenRecord)
  pendingAuthStates : List (String × PendingAuth)
  refreshCalls : Nat
  apiCalls : Nat
deriving Repr

/-- The `CallToolRequestSchema` handler (server.ts lines 1022-1478) for a
protected tool call.  The gate (lines 1028-1042): when `authSessions` has no
record for `sessionId`, mint a state (`crypto.randomBytes(16).toString("hex")`,
modelled by the `state` argument) and a code verifier (modelled by
`codeVerifier`), register the pending authorization, and return the
authorization-URL message instead of dispatching.  Otherwise the switch
dispatches on the tool name; every tool case forwards through
`canvaApiRequest`, so the dispatch is modelled by that call with the
tool-determined `endpoint`, `method` and `body?`. -/
def protectedToolCall (codeChallengeOf : String → String)
    (clientId redirectUri : String)
    (authSessions : List (String × SessionTokenRecord))
    (pendingAuthStates : List (String × PendingAuth))
    (sessionId state codeVerifier : String) (endpoint method : String)
    (body? : Option String) (now nowAfterRefresh : Int)
    (refreshOutcome : FetchOutcome RefreshResponse)
    (apiResponse : HttpResponse) : ProtectedCallResult :=
  if mapHas authSessions sessionId then
    let a := canvaApiRequest authSessions sessionId endpoint method body?
      now nowAfterRefresh refreshOutcome apiResponse
    ⟨false, "", some a.result, a.authSessions, pendingAuthStates,
     a.refreshCalls, a.apiCalls⟩
  else
    let authUrl := generateAuthUrl codeChallengeOf clientId redirectUri state codeVerifier
    ⟨true,
     "Please authenticate with Canva to use this feature. Visit: " ++ authUrl,
     none,
     authSessions,
     mapSet pendingAuthStates state ⟨sessionId, now, codeVerifier⟩,
     0, 0⟩

/-! Helper lemmas about the JS-Map model. -/

theorem mapGet_mapSet_self {α : Type} (m : List (String × α)) (k : String) (v : α) :
    mapGet (mapSet m k v) k = some v := by
  induction m with
  | nil => simp [mapSet, mapGet]
  | cons hd tl ih =>
      cases hk : hd.1 == k with
      | true => simp [mapSet, mapGet, hk]
      | false => simp [mapSet, mapGet, hk, ih]

theorem mapGet_mapDelete_self {α : Type} (m : List (String × α)) (k : String) :
    mapGet (mapDelete m k) k = none := by
  unfold mapDelete
  induction m with
  | nil => simp [mapGet]
  | cons hd tl ih =>
      cases hk : hd.1 == k with
      | true => simpa [List.filter_cons, bne, hk] using ih
      | false => simpa [List.filter_cons, bne, hk, mapGet] using ih

theorem mapGet_filter_eq_none {α : Type} (m : List (String × α)) (k : String)
    (f : String × α → Bool) (h : mapGet m k = none) :
    mapGet (m.filter f) k = none := by
  induction m with
  | nil => simp [mapGet]
  | cons hd tl ih =>
      cases hk : hd.1 == k with
      | true => simp [mapGet, hk] at h
      | false =>
          simp only [mapGet, hk, if_false] at h
          cases hf : f hd with
          | true => simpa [List.filter_cons, hf, mapGet, hk] using ih h
          | false => simpa [List.filter_cons, hf] using ih h

theorem mapGet_eq_none_of_not_mem {α : Type} (m : List (String × α)) (k : String)
    (h : k ∉ m.map Prod.fst) : mapGet m k = none := by
  induction m with
  | nil => rfl
  | cons hd tl ih =>
      have h1 : hd.1 ≠ k := by
        intro he
        exact h (by simp [he])
      have hk : (hd.1 == k) = false := by
        simpa using h1
      simp only [mapGet, hk, if_false]
      exact ih (fun hm => h (List.mem_cons_of_mem _ hm))

theorem mapGet_filter_of_pred_true {α : Type} (m : List (String × α)) (k : String)
    (v : α) (f : String × α → Bool) (hget : mapGet m k = some v)
    (hf : f (k, v) = true) : mapGet (m.filter f) k = some v := by
  induction m with
  | nil => simp [mapGet] at hget
  | cons hd tl ih =>
      obtain ⟨k0, v0⟩ := hd
      cases hk : k0 == k with
      | true =>
          have hks : k0 = k := eq_of_beq hk
          simp only [mapGet, hk, if_true] at hget
          have hv : v0 = v := by injection hget
          subst hks
          subst hv
          simp [List.filter_cons, hf, mapGet]
      | false =>
          simp only [mapGet, hk, if_false] at hget
          cases hfhd : f (k0, v0) with
          | true => simpa [List.filter_cons, hfhd, mapGet, hk] using ih hget
          | false => simpa [List.filter_cons, hfhd] using ih hget

theorem mapGet_filter_of_pred_false {α : Type} (m : List (String × α)) (k : String)
    (v : α) (f : String × α → Bool) (hnodup : (m.map Prod.fst).Nodup)
    (hget : mapGet m k = some v) (hf : f (k, v) = false) :
    mapGet (m.filter f) k = none := by
  induction m with
  | nil => simp [mapGet] at hget
  | cons hd tl ih =>
      have hnodup2 : (tl.map Prod.fst).Nodup := (List.nodup_cons.mp hnodup).2
      have hnotmem : hd.1 ∉ tl.map Prod.fst := (List.nodup_cons.mp hnodup).1
      obtain ⟨k0, v0⟩ := hd
      cases hk : k0 == k with
      | true =>
          have hks : k0 = k := eq_of_beq hk
          simp only [mapGet, hk, if_true] at hget
          have hv : v0 = v := by injection hget
          subst hks
          subst hv
          simp only [List.filter_cons, hf, if_false]
          exact mapGet_filter_eq_none tl _ f (mapGet_eq_none_of_not_mem tl _ hnotmem)
      | false =>
          simp only [mapGet, hk, if_false] at hget
          cases hfhd : f (k0, v0) with
          | true => simpa [List.filter_cons, hfhd, mapGet, hk] using ih hnodup2 hget
          | false => simpa [List.filter_cons, hfhd] using ih hnodup2 hget

theorem mapGet_sweep_of_live (p : List (String × PendingAuth)) (s : String)
    (pa : PendingAuth) (now : Int) (hget : mapGet p s = some pa)
    (hlive : now - pa.createdAt ≤ 10 * 60 * 1000) :
    mapGet (sweepPendingStates p now) s = some pa :=
  mapGet_filter_of_pred_true p s pa _ hget (decide_eq_true hlive)

theorem mapGet_sweep_of_expired (p : List (String × PendingAuth)) (s : String)
    (pa : PendingAuth) (now : Int) (hnodup : (p.map Prod.fst).Nodup)
    (hget : mapGet p s = some pa)
    (hexp : 10 * 60 * 1000 < now - pa.createdAt) :
    mapGet (sweepPendingStates p now) s = none :=
  mapGet_filter_of_pred_false p s pa _ hnodup hget
    (decide_eq_false (not_le.mpr hexp))

/-! Claim theorems. -/

/-- C1: for every session identifier with no record in `authSessions`, a
protected tool call (whatever tool the dispatch arguments stand for) returns
the authorization-URL message, performs no downstream API request and no
refresh, leaves the session token store unchanged, and registers a
pending-authorization entry keyed by the minted state token. -/
theorem C1_no_record_call_returns_auth_url
    (codeChallengeOf : String → String) (clientId redirectUri : String)
    (authSessions : List (String × SessionTokenRecord))
    (pendingAuthStates : List (String × PendingAuth))
    (sessionId state codeVerifier endpoint method : String)
    (body? : Option String) (now nowAfterRefresh : Int)
    (refreshOutcome : FetchOutcome RefreshResponse) (apiResponse : HttpResponse)
    (hnone : mapGet authSessions sessionId = none) :
    protectedToolCall codeChallengeOf clientId redirectUri authSessions
        pendingAuthStates sessionId state codeVerifier endpoint method body?
        now nowAfterRefresh refreshOutcome apiResponse
      = ⟨true,
         "Please authenticate with Canva to use this feature. Visit: " ++
           generateAuthUrl codeChallengeOf clientId redirectUri state codeVerifier,
         none, authSessions,
         mapSet pendingAuthStates state ⟨sessionId, now, codeVerifier⟩, 0, 0⟩
    ∧ mapGet (mapSet pendingAuthStates state ⟨sessionId, now, codeVerifier⟩) state
        = some ⟨sessionId, now, codeVerifier⟩ := by
  constructor
  · unfold protectedToolCall
    simp [mapHas, hnone]
  · exact mapGet_mapSet_self pendingAuthStates state _

/-- Witness for C1 at a concrete unauthenticated session. -/
theorem C1_no_record_call_returns_auth_url_witness :
    protectedToolCall (fun v => v) "cid" "uri" [] [] "s1" "st" "vrf" "/designs"
        "GET" none 0 0 (.success ⟨"A", none, 3600⟩) ⟨200, "ok"⟩
      = ⟨true,
         "Please authenticate with Canva to use this feature. Visit: " ++
           generateAuthUrl (fun v => v) "cid" "uri" "st" "vrf",
         none, [], mapSet [] "st" ⟨"s1", 0, "vrf"⟩, 0, 0⟩
    ∧ mapGet (mapSet ([] : List (String × PendingAuth)) "st" ⟨"s1", 0, "vrf"⟩) "st"
        = some ⟨"s1", 0, "vrf"⟩ :=
  C1_no_record_call_returns_auth_url (fun v => v) "cid" "uri" [] [] "s1" "st"
    "vrf" "/designs" "GET" none 0 0 (.success ⟨"A", none, 3600⟩) ⟨200, "ok"⟩ rfl

/-- C2: the claim says a pending entry older than 10 minutes is treated as
not-found by the callback (400, no exchange) because expired entries are
purged before each lookup.  The code (server.ts lines 1578-1591) performs the
lookup first and sweeps afterwards, so an expired-but-present entry is still
found and its token exchange is performed: with an entry aged 11 minutes the
callback runs the exchange and answers 200, not 400. -/
theorem C2_expired_state_still_exchanged :
    (handleAuthCallback [] [("st1", ⟨"s1", 0, "v1"⟩)] (some "c") (some "st1")
        none 660000 660000 (.success ⟨"A", "R", 3600⟩)).status = 200
    ∧ (handleAuthCallback [] [("st1", ⟨"s1", 0, "v1"⟩)] (some "c") (some "st1")
        none 660000 660000 (.success ⟨"A", "R", 3600⟩)).exchangeCalls = 1 :=
  ⟨rfl, rfl⟩

/-- C3 counterexample: the claim says the entry is removed after the first
callback lookup that hits it.  When the token exchange fails the entry
survives (only the 500 page is written), and a second callback presenting the
same state hits it again and answers 200, not 400. -/
theorem C3_counterexample_failed_exchange_keeps_entry :
    mapGet (handleAuthCallback [] [("st1", ⟨"s1", 0, "v1"⟩)] (some "c")
        (some "st1") none 1000 1000
        (.failure "Bad Request" "denied")).pendingAuthStates "st1"
      = some ⟨"s1", 0, "v1"⟩
    ∧ (handleAuthCallback
        (handleAuthCallback [] [("st1", ⟨"s1", 0, "v1"⟩)] (some "c")
          (some "st1") none 1000 1000
          (.failure "Bad Request" "denied")).authSessions
        (handleAuthCallback [] [("st1", ⟨"s1", 0, "v1"⟩)] (some "c")
          (some "st1") none 1000 1000
          (.failure "Bad Request" "denied")).pendingAuthStates
        (some "c") (some "st1") none 2000 2000
        (.success ⟨"A", "R", 3600⟩)).status = 200 :=
  ⟨rfl, rfl⟩

/-- C3 amended: a pending authorization is single-use once consumed by a
successful exchange: after the first callback whose lookup hits the entry and
whose token exchange succeeds, the entry is removed, so a second callback
presenting the same state token returns the 400 invalid-state response,
performs no exchange, and leaves both stores unchanged. -/
theorem C3_single_use_after_successful_exchange
    (sessions : List (String × SessionTokenRecord))
    (pending : List (String × PendingAuth)) (code state : String)
    (now nowAtStore : Int) (resp : TokenResponse) (pa : PendingAuth)
    (hcode : code ≠ "") (hstate : state ≠ "")
    (hget : mapGet pending state = some pa)
    (sess1 : List (String × SessionTokenRecord))
    (pend1 : List (String × PendingAuth))
    (hsess1 : sess1 = (handleAuthCallback sessions pending (some code)
        (some state) none now nowAtStore (.success resp)).authSessions)
    (hpend1 : pend1 = (handleAuthCallback sessions pending (some code)
        (some state) none now nowAtStore (.success resp)).pendingAuthStates)
    (code2 : String) (now2 nowAtStore2 : Int)
    (outcome2 : FetchOutcome TokenResponse) :
    mapGet pend1 state = none
    ∧ handleAuthCallback sess1 pend1 (some code2) (some state) none now2
        nowAtStore2 outcome2 = ⟨400, sess1, pend1, 0⟩ := by
  have h1 : handleAuthCallback sessions pending (some code) (some state) none
      now nowAtStore (.success resp)
      = ⟨200,
         mapSet sessions pa.sessionId
           ⟨resp.access_token, resp.refresh_token,
            nowAtStore + resp.expires_in * 1000⟩,
         mapDelete (sweepPendingStates pending now) state, 1⟩ := by
    unfold handleAuthCallback
    simp [truthyParam, hcode, hstate, hget, exchangeCodeForToken]
  rw [h1] at hsess1 hpend1
  subst hsess1
  subst hpend1
  have hnone : mapGet (mapDelete (sweepPendingStates pending now) state) state
      = none := mapGet_mapDelete_self _ state
  refine ⟨hnone, ?_⟩
  unfold handleAuthCallback
  by_cases hc2 : code2 = ""
  · simp [truthyParam, hc2]
  · simp [truthyParam, hc2, hstate, hnone]

/-- Witness for C3 amended at a concrete consumed entry. -/
theorem C3_single_use_after_successful_exchange_witness :
    mapGet (handleAuthCallback [] [("st1", ⟨"s1", 0, "v1"⟩)] (some "c")
        (some "st1") none 1000 1000
        (.success ⟨"A", "R", 3600⟩)).pendingAuthStates "st1" = none
    ∧ handleAuthCallback
        (handleAuthCallback [] [("st1", ⟨"s1", 0, "v1"⟩)] (some "c")
          (some "st1") none 1000 1000
          (.success ⟨"A", "R", 3600⟩)).authSessions
        (handleAuthCallback [] [("st1", ⟨"s1", 0, "v1"⟩)] (some "c")
          (some "st1") none 1000 1000
          (.success ⟨"A", "R", 3600⟩)).pendingAuthStates
        (some "c") (some "st1") none 2000 2000
        (.failure "Bad Request" "denied")
      = ⟨400,
         (handleAuthCallback [] [("st1", ⟨"s1", 0, "v1"⟩)] (some "c")
           (some "st1") none 1000 1000
           (.success ⟨"A", "R", 3600⟩)).authSessions,
         (handleAuthCallback [] [("st1", ⟨"s1", 0, "v1"⟩)] (some "c")
           (some "st1") none 1000 1000
           (.success ⟨"A", "R", 3600⟩)).pendingAuthStates, 0⟩ :=
  C3_single_use_after_successful_exchange [] [("st1", ⟨"s1", 0, "v1"⟩)] "c"
    "st1" 1000 1000 ⟨"A", "R", 3600⟩ ⟨"s1", 0, "v1"⟩
    (by decide) (by decide) rfl _ _ rfl rfl "c" 2000 2000
    (.failure "Bad Request" "denied")

/-- C4 counterexample: the claim says a session whose token expires in
exactly 5 minutes (expiresAt - now = 5 minutes, hence >= 5 minutes) passes
through with zero refresh calls.  The code refreshes when
`now >= expiresAt - 5 minutes`, so at the boundary it performs a refresh. -/
theorem C4_counterexample_refresh_at_exact_boundary :
    ((5 * 60 * 1000 : Int) ≤ (300000 : Int) - 0)
    ∧ (getValidAccessToken [("s1", ⟨"A", "R", 300000⟩)] "s1" 0 0
        (.success ⟨"A2", none, 3600⟩)).refreshCalls = 1 :=
  ⟨by decide, rfl⟩

/-- C4 amended: for every authenticated session, a protected call triggers a
refresh (one token-endpoint call in refresh mode, updating accessToken and
expiresAt in place) if and only if `expiresAt - now <= 5 minutes`; when
`expiresAt - now > 5 minutes` the call passes through with zero refresh calls
and the record unchanged. -/
theorem C4_refresh_iff_within_buffer
    (sessions : List (String × SessionTokenRecord)) (sessionId : String)
    (session : SessionTokenRecord) (now nowAfterRefresh : Int)
    (refreshOutcome : FetchOutcome RefreshResponse)
    (hget : mapGet sessions sessionId = some session) :
    (5 * 60 * 1000 < session.expiresAt - now →
      getValidAccessToken sessions sessionId now nowAfterRefresh refreshOutcome
        = ⟨.ok session.accessToken, sessions, 0⟩)
    ∧ (session.expiresAt - now ≤ 5 * 60 * 1000 →
        (getValidAccessToken sessions sessionId now nowAfterRefresh
            refreshOutcome).refreshCalls = 1
        ∧ ∀ resp : RefreshResponse, refreshOutcome = .success resp →
            getValidAccessToken sessions sessionId now nowAfterRefresh
                refreshOutcome
              = ⟨.ok resp.access_token,
                 mapSet sessions sessionId
                   ⟨resp.access_token, session.refreshToken,
                    nowAfterRefresh + resp.expires_in * 1000⟩, 1⟩) := by
  constructor
  · intro hfar
    have hcond : ¬ (session.expiresAt ≤ now + 300000) := by omega
    unfold getValidAccessToken
    rw [hget]
    simp [hcond]
  · intro hnear
    have hcond : session.expiresAt - 5 * 60 * 1000 ≤ now := by omega
    constructor
    · unfold getValidAccessToken
      rw [hget]
      simp only [hcond, if_true]
      cases refreshOutcome with
      | success resp => rfl
      | failure st bd => rfl
    · intro resp hresp
      subst hresp
      unfold getValidAccessToken
      rw [hget]
      simp only [hcond, if_true]
      cases session with
      | mk a r e => rfl

/-- Witness for C4 amended: a record expiring 10 minutes from now passes
through untouched, and the same record probed at its expiry instant is
refreshed in place. -/
theorem C4_refresh_iff_within_buffer_witness :
    ((5 * 60 * 1000 : Int) < (600000 : Int) - 0 →
      getValidAccessToken [("s1", ⟨"A", "R", 600000⟩)] "s1" 0 7
          (.success ⟨"A2", none, 3600⟩)
        = ⟨.ok "A", [("s1", ⟨"A", "R", 600000⟩)], 0⟩)
    ∧ ((600000 : Int) - 0 ≤ 5 * 60 * 1000 →
        (getValidAccessToken [("s1", ⟨"A", "R", 600000⟩)] "s1" 0 7
            (.success ⟨"A2", none, 3600⟩)).refreshCalls = 1
        ∧ ∀ resp : RefreshResponse,
            (FetchOutcome.success (⟨"A2", none, 3600⟩ : RefreshResponse))
              = .success resp →
            getValidAccessToken [("s1", ⟨"A", "R", 600000⟩)] "s1" 0 7
                (.success ⟨"A2", none, 3600⟩)
              = ⟨.ok resp.access_token,
                 mapSet [("s1", ⟨"A", "R", 600000⟩)] "s1"
                   ⟨resp.access_token, "R", 7 + resp.expires_in * 1000⟩, 1⟩) :=
  C4_refresh_iff_within_buffer [("s1", ⟨"A", "R", 600000⟩)] "s1"
    ⟨"A", "R", 600000⟩ 0 7 (.success ⟨"A2", none, 3600⟩) rfl

/-- C5 counterexample: with a stale record whose refresh fails, the claim
says the next protected call re-enters the authorization path (returns an
authorization URL, not another refresh attempt).  The code never evicts the
record, so the next call finds the session authenticated and attempts another
refresh: authRequired is false and one refresh call is made. -/
theorem C5_counterexample_next_call_retries_refresh :
    (protectedToolCall (fun v => v) "cid" "uri"
        (protectedToolCall (fun v => v) "cid" "uri"
          [("s1", ⟨"A", "R", 0⟩)] [] "s1" "st" "vrf" "/designs" "GET" none
          1000000 1000000 (.failure "Bad Request" "denied")
          ⟨200, "ok"⟩).authSessions
        [] "s1" "st" "vrf" "/designs" "GET" none 2000000 2000000
        (.failure "Bad Request" "denied") ⟨200, "ok"⟩).authRequired = false
    ∧ (protectedToolCall (fun v => v) "cid" "uri"
        (protectedToolCall (fun v => v) "cid" "uri"
          [("s1", ⟨"A", "R", 0⟩)] [] "s1" "st" "vrf" "/designs" "GET" none
          1000000 1000000 (.failure "Bad Request" "denied")
          ⟨200, "ok"⟩).authSessions
        [] "s1" "st" "vrf" "/designs" "GET" none 2000000 2000000
        (.failure "Bad Request" "denied") ⟨200, "ok"⟩).refreshCalls = 1 :=
  ⟨rfl, rfl⟩

/-- C5 amended: when a refresh attempt fails, the current protected call
fails with the refresh error and no downstream request is made, but the stale
record is retained unchanged (the code never evicts it), so every later
protected call for that session attempts another refresh instead of returning
an authorization URL. -/
theorem C5_refresh_failure_keeps_stale_record
    (codeChallengeOf : String → String) (clientId redirectUri : String)
    (sessions : List (String × SessionTokenRecord))
    (pending : List (String × PendingAuth))
    (sessionId state codeVerifier endpoint method : String)
    (body? : Option String) (now nowAfterRefresh : Int)
    (statusText bodyStr : String) (apiResponse : HttpResponse)
    (session : SessionTokenRecord)
    (hget : mapGet sessions sessionId = some session)
    (hexp : session.expiresAt - 5 * 60 * 1000 ≤ now) :
    protectedToolCall codeChallengeOf clientId redirectUri sessions pending
        sessionId state codeVerifier endpoint method body? now nowAfterRefresh
        (.failure statusText bodyStr) apiResponse
      = ⟨false, "",
         some (.error ("Failed to refresh token: " ++ statusText ++ " - " ++ bodyStr)),
         sessions, pending, 1, 0⟩
    ∧ (∀ (state2 codeVerifier2 endpoint2 method2 : String)
         (body2 : Option String) (now2 nowAfterRefresh2 : Int)
         (outcome2 : FetchOutcome RefreshResponse)
         (apiResponse2 : HttpResponse), now ≤ now2 →
        (protectedToolCall codeChallengeOf clientId redirectUri sessions
            pending sessionId state2 codeVerifier2 endpoint2 method2 body2
            now2 nowAfterRefresh2 outcome2 apiResponse2).authRequired = false
        ∧ (protectedToolCall codeChallengeOf clientId redirectUri sessions
            pending sessionId state2 codeVerifier2 endpoint2 method2 body2
            now2 nowAfterRefresh2 outcome2 apiResponse2).refreshCalls = 1) := by
  have hhas : mapHas sessions sessionId = true := by
    simp [mapHas, hget]
  constructor
  · have hexp1 : session.expiresAt ≤ now + 300000 := by omega
    unfold protectedToolCall canvaApiRequest getValidAccessToken
    rw [hget]
    simp [hhas, hexp1, refreshAccessToken]
  · intro state2 codeVerifier2 endpoint2 method2 body2 now2 nowAfterRefresh2
      outcome2 apiResponse2 hle
    have hexp2 : session.expiresAt ≤ now2 + 300000 := by omega
    unfold protectedToolCall canvaApiRequest getValidAccessToken
    rw [hget]
    cases outcome2 with
    | success resp =>
        simp only [refreshAccessToken]
        refine ⟨?_, ?_⟩ <;> simp [hhas, hexp2] <;> (repeat' split) <;> rfl
    | failure st bd =>
        simp [hhas, hexp2, refreshAccessToken]

/-- Witness for C5 amended at a concrete stale session. -/
theorem C5_refresh_failure_keeps_stale_record_witness :
    protectedToolCall (fun v => v) "cid" "uri" [("s1", ⟨"A", "R", 0⟩)] []
        "s1" "st" "vrf" "/designs" "GET" none 1000000 1000000
        (.failure "Bad Request" "denied") ⟨200, "ok"⟩
      = ⟨false, "",
         some (.error ("Failed to refresh token: " ++ "Bad Request" ++ " - " ++ "denied")),
         [("s1", ⟨"A", "R", 0⟩)], [], 1, 0⟩
    ∧ (∀ (state2 codeVerifier2 endpoint2 method2 : String)
         (body2 : Option String) (now2 nowAfterRefresh2 : Int)
         (outcome2 : FetchOutcome RefreshResponse)
         (apiResponse2 : HttpResponse), (1000000 : Int) ≤ now2 →
        (protectedToolCall (fun v => v) "cid" "uri" [("s1", ⟨"A", "R", 0⟩)]
            [] "s1" state2 codeVerifier2 endpoint2 method2 body2
            now2 nowAfterRefresh2 outcome2 apiResponse2).authRequired = false
        ∧ (protectedToolCall (fun v => v) "cid" "uri" [("s1", ⟨"A", "R", 0⟩)]
            [] "s1" state2 codeVerifier2 endpoint2 method2 body2
            now2 nowAfterRefresh2 outcome2 apiResponse2).refreshCalls = 1) :=
  C5_refresh_failure_keeps_stale_record (fun v => v) "cid" "uri"
    [("s1", ⟨"A", "R", 0⟩)] [] "s1" "st" "vrf" "/designs" "GET" none
    1000000 1000000 "Bad Request" "denied" ⟨200, "ok"⟩ ⟨"A", "R", 0⟩
    rfl (by decide)

/-- C6: a refresh whose provider response carries no refresh_token mutates
only the accessToken and expiresAt fields of the session's record: the whole
store update is exactly one `mapSet` whose new record keeps the previously
stored refreshToken, and the record read back for the session shows the old
refreshToken next to the new accessToken and expiresAt. -/
theorem C6_refresh_without_rotation_keeps_refresh_token
    (sessions : List (String × SessionTokenRecord)) (sessionId : String)
    (session : SessionTokenRecord) (now nowAfterRefresh : Int)
    (resp : RefreshResponse)
    (hget : mapGet sessions sessionId = some session)
    (hexp : session.expiresAt - 5 * 60 * 1000 ≤ now)
    (hnorot : resp.refresh_token? = none) :
    (getValidAccessToken sessions sessionId now nowAfterRefresh
        (.success resp)).authSessions
      = mapSet sessions sessionId
          ⟨resp.access_token, session.refreshToken,
           nowAfterRefresh + resp.expires_in * 1000⟩
    ∧ mapGet (getValidAccessToken sessions sessionId now nowAfterRefresh
        (.success resp)).authSessions sessionId
      = some ⟨resp.access_token, session.refreshToken,
              nowAfterRefresh + resp.expires_in * 1000⟩ := by
  have h1 : (getValidAccessToken sessions sessionId now nowAfterRefresh
      (.success resp)).authSessions
      = mapSet sessions sessionId
          ⟨resp.access_token, session.refreshToken,
           nowAfterRefresh + resp.expires_in * 1000⟩ := by
    simp only [getValidAccessToken, hget]
    rw [if_pos hexp]
    rfl
  exact ⟨h1, by rw [h1]; exact mapGet_mapSet_self sessions sessionId _⟩

/-- Witness for C6 at a concrete stale record and a rotation-free response. -/
theorem C6_refresh_without_rotation_keeps_refresh_token_witness :
    (getValidAccessToken [("s1", ⟨"A", "R", 0⟩)] "s1" 1000000 1000003
        (.success ⟨"A2", none, 3600⟩)).authSessions
      = mapSet [("s1", ⟨"A", "R", 0⟩)] "s1" ⟨"A2", "R", 1000003 + 3600 * 1000⟩
    ∧ mapGet (getValidAccessToken [("s1", ⟨"A", "R", 0⟩)] "s1" 1000000 1000003
        (.success ⟨"A2", none, 3600⟩)).authSessions "s1"
      = some ⟨"A2", "R", 1000003 + 3600 * 1000⟩ :=
  C6_refresh_without_rotation_keeps_refresh_token [("s1", ⟨"A", "R", 0⟩)]
    "s1" ⟨"A", "R", 0⟩ 1000000 1000003 ⟨"A2", none, 3600⟩ rfl (by decide) rfl

/-- C7: on a successful code exchange the stored record's expiresAt is the
single time sample taken after the exchange returns plus the provider's
expires_in converted to milliseconds, and on a successful refresh the updated
record's expiresAt is likewise the single post-refresh time sample plus
expires_in times 1000; in both paths the value is computed once from the
response. -/
theorem C7_expires_at_derived_once_from_exchange_time
    (sessions : List (String × SessionTokenRecord))
    (pending : List (String × PendingAuth)) (code state : String)
    (now nowAtStore : Int) (resp : TokenResponse) (pa : PendingAuth)
    (hcode : code ≠ "") (hstate : state ≠ "")
    (hget : mapGet pending state = some pa)
    (sessions2 : List (String × SessionTokenRecord)) (sessionId2 : String)
    (session2 : SessionTokenRecord) (now2 nowAfterRefresh2 : Int)
    (resp2 : RefreshResponse)
    (hget2 : mapGet sessions2 sessionId2 = some session2)
    (hexp2 : session2.expiresAt - 5 * 60 * 1000 ≤ now2) :
    mapGet (handleAuthCallback sessions pending (some code) (some state) none
        now nowAtStore (.success resp)).authSessions pa.sessionId
      = some ⟨resp.access_token, resp.refresh_token,
              nowAtStore + resp.expires_in * 1000⟩
    ∧ mapGet (getValidAccessToken sessions2 sessionId2 now2 nowAfterRefresh2
        (.success resp2)).authSessions sessionId2
      = some ⟨resp2.access_token, session2.refreshToken,
              nowAfterRefresh2 + resp2.expires_in * 1000⟩ := by
  constructor
  · have h1 : (handleAuthCallback sessions pending (some code) (some state)
        none now nowAtStore (.success resp)).authSessions
        = mapSet sessions pa.sessionId
            ⟨resp.access_token, resp.refresh_token,
             nowAtStore + resp.expires_in * 1000⟩ := by
      unfold handleAuthCallback
      simp [truthyParam, hcode, hstate, hget, exchangeCodeForToken]
    rw [h1]
    exact mapGet_mapSet_self sessions pa.sessionId _
  · have h2 : (getValidAccessToken sessions2 sessionId2 now2 nowAfterRefresh2
        (.success resp2)).authSessions
        = mapSet sessions2 sessionId2
            ⟨resp2.access_token, session2.refreshToken,
             nowAfterRefresh2 + resp2.expires_in * 1000⟩ := by
      simp only [getValidAccessToken, hget2]
      rw [if_pos hexp2]
      rfl
    rw [h2]
    exact mapGet_mapSet_self sessions2 sessionId2 _

/-- Witness for C7 at a concrete exchange and a concrete refresh. -/
theorem C7_expires_at_derived_once_from_exchange_time_witness :
    mapGet (handleAuthCallback [] [("st1", ⟨"s1", 0, "v1"⟩)] (some "c")
        (some "st1") none 1000 1234 (.success ⟨"A", "R", 3600⟩)).authSessions
        "s1"
      = some ⟨"A", "R", 1234 + 3600 * 1000⟩
    ∧ mapGet (getValidAccessToken [("s2", ⟨"B", "S", 0⟩)] "s2" 1000000 1000003
        (.success ⟨"B2", none, 60⟩)).authSessions "s2"
      = some ⟨"B2", "S", 1000003 + 60 * 1000⟩ :=
  C7_expires_at_derived_once_from_exchange_time [] [("st1", ⟨"s1", 0, "v1"⟩)]
    "c" "st1" 1000 1234 ⟨"A", "R", 3600⟩ ⟨"s1", 0, "v1"⟩ (by decide)
    (by decide) rfl [("s2", ⟨"B", "S", 0⟩)] "s2" ⟨"B", "S", 0⟩ 1000000 1000003
    ⟨"B2", none, 60⟩ rfl (by decide)

set_option maxRecDepth 10000 in
/-- C8 counterexample: the claim says a missing clientId is rejected as a
configuration error instead of producing a URL with an empty client_id.
`CANVA_CLIENT_ID` defaults to the empty string and `generateAuthUrl` never
validates it: with an empty clientId the builder returns the full
authorization URL whose client_id parameter is empty. -/
theorem C8_counterexample_empty_client_id_url_produced :
    generateAuthUrl (fun _ => "CH") "" "http://0.0.0.0:8001/auth/callback"
        "st" "v"
      = "https://www.canva.com/api/oauth/authorize?client_id=&response_type=code&redirect_uri=http%3A%2F%2F0.0.0.0%3A8001%2Fauth%2Fcallback&state=st&scope=asset%3Aread+asset%3Awrite+comment%3Aread+comment%3Awrite+design%3Acontent%3Aread+design%3Acontent%3Awrite+design%3Ameta%3Aread+folder%3Aread+folder%3Awrite+profile%3Aread&code_challenge=CH&code_challenge_method=S256" :=
  rfl

set_option maxRecDepth 10000 in
/-- C8 amended: building the authorization URL performs no validation: with a
missing (empty) clientId it still produces a URL whose client_id parameter is
empty, for every redirect URI, state and verifier; an empty scope set cannot
arise because the scope list is hard-coded and non-empty. -/
theorem C8_no_client_id_validation
    (codeChallengeOf : String → String)
    (redirectUri state codeVerifier : String) :
    (generateAuthUrl codeChallengeOf "" redirectUri state codeVerifier
      = "https://www.canva.com/api/oauth/authorize?client_id=&" ++
          urlParamsToString
            [("response_type", "code"),
             ("redirect_uri", redirectUri),
             ("state", state),
             ("scope", String.intercalate " " authScopes),
             ("code_challenge", codeChallengeOf codeVerifier),
             ("code_challenge_method", "S256")])
    ∧ authScopes ≠ [] := by
  exact ⟨rfl, by intro h; simp [authScopes] at h⟩

/-- C9: every forwarded downstream request carries
`Authorization: Bearer <accessToken>` for the token the gate resolved; a
non-2xx response is surfaced as an error carrying the downstream status and
body; a 204 response is a valid empty success returning null. -/
theorem C9_forwarded_request_contract
    (sessions : List (String × SessionTokenRecord)) (sessionId : String)
    (endpoint method : String) (body? : Option String)
    (now nowAfterRefresh : Int) (refreshOutcome : FetchOutcome RefreshResponse)
    (apiResponse : HttpResponse) (tok : String)
    (htok : (getValidAccessToken sessions sessionId now nowAfterRefresh
        refreshOutcome).result = .ok tok) :
    (canvaApiRequest sessions sessionId endpoint method body? now
        nowAfterRefresh refreshOutcome apiResponse).authHeader
      = some ("Bearer " ++ tok)
    ∧ (responseOk apiResponse = false →
        (canvaApiRequest sessions sessionId endpoint method body? now
            nowAfterRefresh refreshOutcome apiResponse).result
          = .error ("Canva API error: " ++ toString apiResponse.status ++ " "
              ++ apiResponse.body))
    ∧ (apiResponse.status = 204 →
        (canvaApiRequest sessions sessionId endpoint method body? now
            nowAfterRefresh refreshOutcome apiResponse).result = .ok none) := by
  refine ⟨?_, ?_, ?_⟩
  · simp only [canvaApiRequest, htok]
    split
    · split
      · rfl
      · rfl
    · rfl
  · intro hbad
    simp only [canvaApiRequest, htok]
    rw [if_neg (by simp [hbad])]
  · intro h204
    have hok : responseOk apiResponse = true := by
      simp [responseOk, h204]
    simp only [canvaApiRequest, htok]
    rw [if_pos hok]
    rw [if_pos (by simp [h204])]

/-- Witness for C9 at a concrete valid session and a 204 response. -/
theorem C9_forwarded_request_contract_witness :
    (canvaApiRequest [("s1", ⟨"A", "R", 999999999⟩)] "s1" "/designs" "GET"
        none 0 0 (.success ⟨"A2", none, 3600⟩) ⟨204, ""⟩).authHeader
      = some ("Bearer " ++ "A")
    ∧ (responseOk ⟨204, ""⟩ = false →
        (canvaApiRequest [("s1", ⟨"A", "R", 999999999⟩)] "s1" "/designs" "GET"
            none 0 0 (.success ⟨"A2", none, 3600⟩) ⟨204, ""⟩).result
          = .error ("Canva API error: " ++ toString (204 : Nat) ++ " " ++ ""))
    ∧ ((204 : Nat) = 204 →
        (canvaApiRequest [("s1", ⟨"A", "R", 999999999⟩)] "s1" "/designs" "GET"
            none 0 0 (.success ⟨"A2", none, 3600⟩) ⟨204, ""⟩).result
          = .ok none) :=
  C9_forwarded_request_contract [("s1", ⟨"A", "R", 999999999⟩)] "s1"
    "/designs" "GET" none 0 0 (.success ⟨"A2", none, 3600⟩) ⟨204, ""⟩ "A" rfl

/-- C10 counterexample: the claim says that on exchange failure the pending
entry for the presented state always remains in the registry.  When the entry
is already expired, the sweep that runs between the lookup and the exchange
removes it, so after a failed exchange the registry no longer holds the
state: the callback answers 500 but the entry is gone. -/
theorem C10_counterexample_expired_entry_swept_on_failure :
    (handleAuthCallback [] [("st1", ⟨"s1", 0, "v1"⟩)] (some "c") (some "st1")
        none 660000 660000
        (.failure "Bad Request" "denied")).status = 500
    ∧ (handleAuthCallback [] [("st1", ⟨"s1", 0, "v1"⟩)] (some "c")
        (some "st1") none 660000 660000
        (.failure "Bad Request" "denied")).pendingAuthStates = [] :=
  ⟨rfl, rfl⟩

/-- C10 amended: on exchange failure the callback answers 500, makes exactly
one exchange attempt, and leaves the session token store unchanged; the
pending entry for the presented state survives exactly when it is at most 10
minutes old, because the sweep that runs before the exchange removes it when
expired. -/
theorem C10_exchange_failure_leaves_token_store_unchanged
    (sessions : List (String × SessionTokenRecord))
    (pending : List (String × PendingAuth)) (code state : String)
    (now nowAtStore : Int) (statusText bodyStr : String) (pa : PendingAuth)
    (hcode : code ≠ "") (hstate : state ≠ "")
    (hget : mapGet pending state = some pa) :
    handleAuthCallback sessions pending (some code) (some state) none now
        nowAtStore (.failure statusText bodyStr)
      = ⟨500, sessions, sweepPendingStates pending now, 1⟩
    ∧ (now - pa.createdAt ≤ 10 * 60 * 1000 →
        mapGet (sweepPendingStates pending now) state = some pa)
    ∧ ((pending.map Prod.fst).Nodup → 10 * 60 * 1000 < now - pa.createdAt →
        mapGet (sweepPendingStates pending now) state = none) := by
  refine ⟨?_, ?_, ?_⟩
  · unfold handleAuthCallback
    simp [truthyParam, hcode, hstate, hget, exchangeCodeForToken]
  · intro hlive
    exact mapGet_sweep_of_live pending state pa now hget hlive
  · intro hnodup hexp
    exact mapGet_sweep_of_expired pending state pa now hnodup hget hexp

/-- Witness for C10 amended at a concrete fresh entry and failed exchange. -/
theorem C10_exchange_failure_leaves_token_store_unchanged_witness :
    handleAuthCallback [] [("st1", ⟨"s1", 0, "v1"⟩)] (some "c") (some "st1")
        none 1000 1000 (.failure "Bad Request" "denied")
      = ⟨500, [], sweepPendingStates [("st1", ⟨"s1", 0, "v1"⟩)] 1000, 1⟩
    ∧ ((1000 : Int) - 0 ≤ 10 * 60 * 1000 →
        mapGet (sweepPendingStates [("st1", ⟨"s1", 0, "v1"⟩)] 1000) "st1"
          = some ⟨"s1", 0, "v1"⟩)
    ∧ (([("st1", (⟨"s1", 0, "v1"⟩ : PendingAuth))].map Prod.fst).Nodup →
        (10 : Int) * 60 * 1000 < 1000 - 0 →
        mapGet (sweepPendingStates [("st1", ⟨"s1", 0, "v1"⟩)] 1000) "st1"
          = none) :=
  C10_exchange_failure_leaves_token_store_unchanged [] [("st1", ⟨"s1", 0, "v1"⟩)]
    "c" "st1" 1000 1000 "Bad Request" "denied" ⟨"s1", 0, "v1"⟩
    (by decide) (by decide) rfl

end CanvaMCP
